import Mathlib

/-!
Shallow embedding of `src/lib/store-chats.ts`: the conversations store of a
chat application (zustand-based), with its data model (`DMessage`,
`DConversation`, `ConversationsStore`), its mutation operations, and the
active-conversation resolver.

Modelling conventions:
* `Date.now()` is passed explicitly as a `now : Nat` argument (and the module
  load time, at which the module-level constants are built, as `t0`).
* JavaScript object identity is tracked by a `ref : Nat` field on
  `DConversation`: an object-spread `{...c, ...}` allocates a fresh object,
  modelled as `ref := base + c.ref` where `base` is the allocation round;
  when every live ref is below `base` the new ref differs from every live one.
  Returning the object itself (`return conversation`) keeps the same `ref`.
* TypeScript optional fields (`field?: T`) and nullable fields become
  `Option`; `x || 0` on an optional number becomes `Option.getD x 0`
  (the counts involved are non-negative integers per the spec).
* zustand's `set` with a single-key object merges with the rest of the state,
  so each operation copies the untouched top-level field unchanged.
-/

/-- The `role` union type of a message: `'assistant' | 'system' | 'user'`. -/
inductive DRole where
  | assistant
  | system
  | user
deriving DecidableEq, Repr

/-- `DMessage` from the source: a single turn in a conversation. -/
structure DMessage where
  id : String
  text : String
  sender : String
  avatar : Option String
  typing : Bool
  role : DRole
  modelId : Option String
  purposeId : Option String
  cacheTokensCount : Option Nat
  created : Nat
  updated : Option Nat
deriving DecidableEq, Repr

/-- `Partial<DMessage>`: every field may be absent; for fields that are
themselves optional or nullable, a present value is an `Option`. -/
structure DMessageUpdate where
  id : Option String := none
  text : Option String := none
  sender : Option String := none
  avatar : Option (Option String) := none
  typing : Option Bool := none
  role : Option DRole := none
  modelId : Option (Option String) := none
  purposeId : Option (Option String) := none
  cacheTokensCount : Option (Option Nat) := none
  created : Option Nat := none
  updated : Option (Option Nat) := none
deriving DecidableEq, Repr

/-- The merge `{...message, ...updatedMessage, updated: Date.now()}` performed
by `editMessage`: present fields of the payload override, and the trailing
`updated: Date.now()` wins over any `updated` in the payload. -/
def mergeMessage (m : DMessage) (u : DMessageUpdate) (now : Nat) : DMessage :=
  { id := u.id.getD m.id
    text := u.text.getD m.text
    sender := u.sender.getD m.sender
    avatar := u.avatar.getD m.avatar
    typing := u.typing.getD m.typing
    role := u.role.getD m.role
    modelId := u.modelId.getD m.modelId
    purposeId := u.purposeId.getD m.purposeId
    cacheTokensCount := u.cacheTokensCount.getD m.cacheTokensCount
    created := u.created.getD m.created
    updated := some now }

/-- `message.cacheTokensCount || 0`. -/
def msgTokens (m : DMessage) : Nat :=
  m.cacheTokensCount.getD 0

/-- `messages.reduce((sum, message) => sum + (message.cacheTokensCount || 0), 0)`. -/
def sumTokens (ms : List DMessage) : Nat :=
  ms.foldl (fun sum m => sum + msgTokens m) 0

/-- `DConversation` from the source; `ref` is the object-identity tag of the
modelling convention, not a source field. -/
structure DConversation where
  ref : Nat
  id : String
  name : String
  messages : List DMessage
  systemPurposeId : String
  chatModelId : String
  userTitle : Option String := none
  autoTitle : Option String := none
  cacheTokensCount : Option Nat := none
  created : Nat
  updated : Option Nat
deriving DecidableEq, Repr

/-- Modelled from the spec: `defaultChatModelId` comes from the external
model-catalog module `@/lib/data`, which is not part of this repository's
source; it is an opaque identifier string which this module only passes
through. -/
def defaultChatModelId : String := "default-chat-model"

/-- `createConversation` from the source; `ref` is the identity tag of the
newly allocated object and `now` the `Date.now()` at creation. -/
def createConversation (ref : Nat) (id name systemPurposeId chatModelId : String)
    (now : Nat) : DConversation :=
  { ref := ref, id := id, name := name, messages := []
    systemPurposeId := systemPurposeId, chatModelId := chatModelId
    created := now, updated := some now }

/-- `defaultConversations`, built once at module load time `t0`. -/
def defaultConversations (t0 : Nat) : List DConversation :=
  [createConversation 0 "default" "Conversation" "Generic" defaultChatModelId t0]

/-- `errorConversation`, the sentinel built once at module load time `t0`. -/
def errorConversation (t0 : Nat) : DConversation :=
  createConversation 1 "error-missing" "Missing Conversation" "Developer"
    defaultChatModelId t0

/-- The store state: the `conversations` list and the nullable
`activeConversationId`. -/
structure ConversationsStore where
  conversations : List DConversation
  activeConversationId : Option String
deriving DecidableEq, Repr

/-- The default store state: `conversations: defaultConversations`,
`activeConversationId: defaultConversations[0].id`. -/
def initStore (t0 : Nat) : ConversationsStore :=
  { conversations := defaultConversations t0
    activeConversationId := some "default" }

/-- `addConversation`: prepend and truncate with `slice(0, 19)`. -/
def addConversation (conversation : DConversation) (s : ConversationsStore) :
    ConversationsStore :=
  { s with conversations := conversation :: s.conversations.take 19 }

/-- `deleteConversation`: keep the conversations whose id differs. -/
def deleteConversation (conversationId : String) (s : ConversationsStore) :
    ConversationsStore :=
  { s with conversations := s.conversations.filter (fun c => c.id != conversationId) }

/-- `resetConversations`: replace the list with `defaultConversations`. -/
def resetConversations (t0 : Nat) (s : ConversationsStore) : ConversationsStore :=
  { s with conversations := defaultConversations t0 }

/-- `setActiveConversationId`: set the pointer unconditionally. -/
def setActiveConversationId (conversationId : String) (s : ConversationsStore) :
    ConversationsStore :=
  { s with activeConversationId := some conversationId }

/-- `addMessage`: the map spreads every conversation into a new object
(`{...conversation, ...(cond ? {} : {...})}`); on the matching one it appends
the message, adds its count to the stored aggregate incrementally, and stamps
`updated`. -/
def addMessage (conversationId : String) (message : DMessage) (now base : Nat)
    (s : ConversationsStore) : ConversationsStore :=
  { s with conversations := s.conversations.map (fun c =>
      if c.id = conversationId then
        { c with ref := base + c.ref
                 messages := c.messages ++ [message]
                 cacheTokensCount :=
                   some (c.cacheTokensCount.getD 0 + msgTokens message)
                 updated := some now }
      else
        { c with ref := base + c.ref }) }

/-- `editMessage`: merge the payload into the matching message, then rebuild
the matching conversation with the full recomputed aggregate; non-matching
conversations are returned as the same object. -/
def editMessage (conversationId messageId : String) (updatedMessage : DMessageUpdate)
    (now base : Nat) (s : ConversationsStore) : ConversationsStore :=
  { s with conversations := s.conversations.map (fun c =>
      if c.id = conversationId then
        let newMessages := c.messages.map (fun m =>
          if m.id = messageId then mergeMessage m updatedMessage now else m)
        { c with ref := base + c.ref
                 messages := newMessages
                 cacheTokensCount := some (sumTokens newMessages)
                 updated := some now }
      else c) }

/-- `removeMessage`: drop the matching message, recompute the aggregate;
non-matching conversations are returned as the same object. -/
def removeMessage (conversationId messageId : String) (now base : Nat)
    (s : ConversationsStore) : ConversationsStore :=
  { s with conversations := s.conversations.map (fun c =>
      if c.id = conversationId then
        let newMessages := c.messages.filter (fun m => m.id != messageId)
        { c with ref := base + c.ref
                 messages := newMessages
                 cacheTokensCount := some (sumTokens newMessages)
                 updated := some now }
      else c) }

/-- `replaceMessages`: wholesale replace the message list, recompute the
aggregate; non-matching conversations are returned as the same object. -/
def replaceMessages (conversationId : String) (newMessages : List DMessage)
    (now base : Nat) (s : ConversationsStore) : ConversationsStore :=
  { s with conversations := s.conversations.map (fun c =>
      if c.id = conversationId then
        { c with ref := base + c.ref
                 messages := newMessages
                 cacheTokensCount := some (sumTokens newMessages)
                 updated := some now }
      else c) }

/-- `setSystemPurposeId`: update the field and stamp `updated` on the matching
conversation; others are returned as the same object. -/
def setSystemPurposeId (conversationId systemPurposeId : String) (now base : Nat)
    (s : ConversationsStore) : ConversationsStore :=
  { s with conversations := s.conversations.map (fun c =>
      if c.id = conversationId then
        { c with ref := base + c.ref
                 systemPurposeId := systemPurposeId
                 updated := some now }
      else c) }

/-- `setChatModelId`: update the field and stamp `updated` on the matching
conversation; others are returned as the same object. -/
def setChatModelId (conversationId chatModelId : String) (now base : Nat)
    (s : ConversationsStore) : ConversationsStore :=
  { s with conversations := s.conversations.map (fun c =>
      if c.id = conversationId then
        { c with ref := base + c.ref
                 chatModelId := chatModelId
                 updated := some now }
      else c) }

/-- `useActiveConversation`: `find(c => c.id === activeConversationId) ||
errorConversation` (a `string === null` comparison is false, so a `null`
active id never matches). -/
def useActiveConversation (t0 : Nat) (s : ConversationsStore) : DConversation :=
  (s.conversations.find? (fun c => some c.id == s.activeConversationId)).getD
    (errorConversation t0)

/-! ## Derived predicates and state-erasure helpers -/

/-- A conversation whose stored aggregate equals the exact sum over its
messages, absent values treated as 0. -/
def conversationInSync (c : DConversation) : Prop :=
  c.cacheTokensCount.getD 0 = sumTokens c.messages

/-- Every conversation of the store is in sync. -/
def storeInSync (s : ConversationsStore) : Prop :=
  ∀ c ∈ s.conversations, conversationInSync c

/-- Erase the object-identity tag, keeping only the content of a
conversation. -/
def eraseRef (c : DConversation) : DConversation :=
  { c with ref := 0 }

/-- Content equality of store snapshots: equal up to object identity. -/
def contentEq (s t : ConversationsStore) : Prop :=
  s.conversations.map eraseRef = t.conversations.map eraseRef ∧
    s.activeConversationId = t.activeConversationId

/-- Erase the `updated` stamp of a message. -/
def eraseMsgStamp (m : DMessage) : DMessage :=
  { m with updated := none }

/-- Erase object identity and all `updated` stamps of a conversation. -/
def eraseConvStamp (c : DConversation) : DConversation :=
  { c with ref := 0, updated := none, messages := c.messages.map eraseMsgStamp }

/-- The store snapshot up to object identity and `updated` stamps. -/
def stripStamps (s : ConversationsStore) : ConversationsStore :=
  { conversations := s.conversations.map eraseConvStamp
    activeConversationId := s.activeConversationId }

/-- States reachable from the default state by the store's operations, with
no condition on caller-supplied arguments. -/
inductive Reachable : ConversationsStore → Prop where
  | init (t0 : Nat) : Reachable (initStore t0)
  | add {s} (c : DConversation) : Reachable s → Reachable (addConversation c s)
  | del {s} (cid : String) : Reachable s → Reachable (deleteConversation cid s)
  | reset {s} (t0 : Nat) : Reachable s → Reachable (resetConversations t0 s)
  | setActive {s} (cid : String) : Reachable s → Reachable (setActiveConversationId cid s)
  | addMsg {s} (cid : String) (m : DMessage) (now base : Nat) :
      Reachable s → Reachable (addMessage cid m now base s)
  | editMsg {s} (cid mid : String) (u : DMessageUpdate) (now base : Nat) :
      Reachable s → Reachable (editMessage cid mid u now base s)
  | removeMsg {s} (cid mid : String) (now base : Nat) :
      Reachable s → Reachable (removeMessage cid mid now base s)
  | replaceMsgs {s} (cid : String) (ms : List DMessage) (now base : Nat) :
      Reachable s → Reachable (replaceMessages cid ms now base s)
  | setPurpose {s} (cid pid : String) (now base : Nat) :
      Reachable s → Reachable (setSystemPurposeId cid pid now base s)
  | setModel {s} (cid mid : String) (now base : Nat) :
      Reachable s → Reachable (setChatModelId cid mid now base s)

/-- States reachable from the default state when every conversation handed to
`addConversation` carries an in-sync aggregate (as every conversation built by
`createConversation` does: empty messages, absent count). -/
inductive ReachableSync : ConversationsStore → Prop where
  | init (t0 : Nat) : ReachableSync (initStore t0)
  | add {s} (c : DConversation) : ReachableSync s → conversationInSync c →
      ReachableSync (addConversation c s)
  | del {s} (cid : String) : ReachableSync s → ReachableSync (deleteConversation cid s)
  | reset {s} (t0 : Nat) : ReachableSync s → ReachableSync (resetConversations t0 s)
  | setActive {s} (cid : String) : ReachableSync s →
      ReachableSync (setActiveConversationId cid s)
  | addMsg {s} (cid : String) (m : DMessage) (now base : Nat) :
      ReachableSync s → ReachableSync (addMessage cid m now base s)
  | editMsg {s} (cid mid : String) (u : DMessageUpdate) (now base : Nat) :
      ReachableSync s → ReachableSync (editMessage cid mid u now base s)
  | removeMsg {s} (cid mid : String) (now base : Nat) :
      ReachableSync s → ReachableSync (removeMessage cid mid now base s)
  | replaceMsgs {s} (cid : String) (ms : List DMessage) (now base : Nat) :
      ReachableSync s → ReachableSync (replaceMessages cid ms now base s)
  | setPurpose {s} (cid pid : String) (now base : Nat) :
      ReachableSync s → ReachableSync (setSystemPurposeId cid pid now base s)
  | setModel {s} (cid mid : String) (now base : Nat) :
      ReachableSync s → ReachableSync (setChatModelId cid mid now base s)

/-- States reachable from the default state when every conversation handed to
`addConversation` carries an id not already in the list. -/
inductive ReachableFresh : ConversationsStore → Prop where
  | init (t0 : Nat) : ReachableFresh (initStore t0)
  | add {s} (c : DConversation) : ReachableFresh s →
      c.id ∉ s.conversations.map DConversation.id →
      ReachableFresh (addConversation c s)
  | del {s} (cid : String) : ReachableFresh s → ReachableFresh (deleteConversation cid s)
  | reset {s} (t0 : Nat) : ReachableFresh s → ReachableFresh (resetConversations t0 s)
  | setActive {s} (cid : String) : ReachableFresh s →
      ReachableFresh (setActiveConversationId cid s)
  | addMsg {s} (cid : String) (m : DMessage) (now base : Nat) :
      ReachableFresh s → ReachableFresh (addMessage cid m now base s)
  | editMsg {s} (cid mid : String) (u : DMessageUpdate) (now base : Nat) :
      ReachableFresh s → ReachableFresh (editMessage cid mid u now base s)
  | removeMsg {s} (cid mid : String) (now base : Nat) :
      ReachableFresh s → ReachableFresh (removeMessage cid mid now base s)
  | replaceMsgs {s} (cid : String) (ms : List DMessage) (now base : Nat) :
      ReachableFresh s → ReachableFresh (replaceMessages cid ms now base s)
  | setPurpose {s} (cid pid : String) (now base : Nat) :
      ReachableFresh s → ReachableFresh (setSystemPurposeId cid pid now base s)
  | setModel {s} (cid mid : String) (now base : Nat) :
      ReachableFresh s → ReachableFresh (setChatModelId cid mid now base s)

/-- A concrete message used by the concrete witnesses. -/
def witnessMessage : DMessage :=
  { id := "m1", text := "hi", sender := "You", avatar := none, typing := false
    role := DRole.user, modelId := none, purposeId := none
    cacheTokensCount := some 3, created := 2, updated := none }

/-- A concrete conversation used by the concrete witnesses and
counterexamples. -/
def exampleConversation : DConversation :=
  { ref := 0, id := "a", name := "A", messages := [], systemPurposeId := "Generic"
    chatModelId := defaultChatModelId, created := 0, updated := some 0 }

/-- A concrete one-conversation store used by the concrete witnesses and
counterexamples. -/
def exampleStore : ConversationsStore :=
  { conversations := [exampleConversation], activeConversationId := some "a" }

/-- The default store after `addConversation` with a caller-supplied
conversation reusing the id `"default"`. -/
def duplicateStore : ConversationsStore :=
  addConversation
    (createConversation 2 "default" "Conversation" "Generic" defaultChatModelId 0)
    (initStore 0)

/-! ## Helper lemmas -/

theorem sumTokens_append (ms : List DMessage) (m : DMessage) :
    sumTokens (ms ++ [m]) = sumTokens ms + msgTokens m := by
  simp [sumTokens, List.foldl_append]

theorem Option.getD_getD_self {α : Type} (o : Option α) (x : α) :
    o.getD (o.getD x) = o.getD x := by
  cases o <;> rfl

/-- Every state reachable with in-sync `addConversation` payloads is in sync:
the incremental update of `addMessage` and the full recomputation of the other
message operations both preserve the aggregate invariant. -/
theorem storeInSync_of_reachableSync {s : ConversationsStore}
    (h : ReachableSync s) : storeInSync s := by
  induction h with
  | init t0 =>
    intro c hc
    simp [initStore, defaultConversations] at hc
    subst hc
    rfl
  | add c _ hsync ih =>
    intro c' hc'
    simp [addConversation] at hc'
    rcases hc' with rfl | hc'
    · exact hsync
    · exact ih c' (List.mem_of_mem_take hc')
  | del cid _ ih =>
    intro c' hc'
    simp [deleteConversation, List.mem_filter] at hc'
    exact ih c' hc'.1
  | reset t0 _ ih =>
    intro c hc
    simp [resetConversations, defaultConversations] at hc
    subst hc
    rfl
  | setActive cid _ ih =>
    intro c' hc'
    exact ih c' hc'
  | addMsg cid m now base _ ih =>
    intro c' hc'
    simp [addMessage, List.mem_map] at hc'
    obtain ⟨c, hc, rfl⟩ := hc'
    by_cases hid : c.id = cid
    · have hsync := ih c hc
      simp [conversationInSync] at hsync
      simp [hid, conversationInSync, sumTokens_append, hsync]
    · simp [hid, conversationInSync]
      exact ih c hc
  | editMsg cid mid u now base _ ih =>
    intro c' hc'
    simp [editMessage, List.mem_map] at hc'
    obtain ⟨c, hc, rfl⟩ := hc'
    by_cases hid : c.id = cid
    · simp [hid, conversationInSync]
    · simp [hid]
      exact ih c hc
  | removeMsg cid mid now base _ ih =>
    intro c' hc'
    simp [removeMessage, List.mem_map] at hc'
    obtain ⟨c, hc, rfl⟩ := hc'
    by_cases hid : c.id = cid
    · simp [hid, conversationInSync]
    · simp [hid]
      exact ih c hc
  | replaceMsgs cid ms now base _ ih =>
    intro c' hc'
    simp [replaceMessages, List.mem_map] at hc'
    obtain ⟨c, hc, rfl⟩ := hc'
    by_cases hid : c.id = cid
    · simp [hid, conversationInSync]
    · simp [hid]
      exact ih c hc
  | setPurpose cid pid now base _ ih =>
    intro c' hc'
    simp [setSystemPurposeId, List.mem_map] at hc'
    obtain ⟨c, hc, rfl⟩ := hc'
    by_cases hid : c.id = cid
    · simp [hid, conversationInSync]
      exact ih c hc
    · simp [hid]
      exact ih c hc
  | setModel cid mid now base _ ih =>
    intro c' hc'
    simp [setChatModelId, List.mem_map] at hc'
    obtain ⟨c, hc, rfl⟩ := hc'
    by_cases hid : c.id = cid
    · simp [hid, conversationInSync]
      exact ih c hc
    · simp [hid]
      exact ih c hc

/-- C1: in every reachable store state (conversations enter the store in sync,
as `createConversation` builds them), after any of `addMessage`, `editMessage`,
`removeMessage` or `replaceMessages`, every conversation's `cacheTokensCount`
equals the exact sum of its messages' counts, absent treated as 0. -/
theorem c1_cacheTokensCount_exact_sum {s : ConversationsStore}
    (h : ReachableSync s) :
    (∀ cid m now base, storeInSync (addMessage cid m now base s)) ∧
    (∀ cid mid u now base, storeInSync (editMessage cid mid u now base s)) ∧
    (∀ cid mid now base, storeInSync (removeMessage cid mid now base s)) ∧
    (∀ cid ms now base, storeInSync (replaceMessages cid ms now base s)) :=
  ⟨fun cid m now base =>
      storeInSync_of_reachableSync (ReachableSync.addMsg cid m now base h),
    fun cid mid u now base =>
      storeInSync_of_reachableSync (ReachableSync.editMsg cid mid u now base h),
    fun cid mid now base =>
      storeInSync_of_reachableSync (ReachableSync.removeMsg cid mid now base h),
    fun cid ms now base =>
      storeInSync_of_reachableSync (ReachableSync.replaceMsgs cid ms now base h)⟩

/-- Witness for C1 at the default state. -/
theorem c1_cacheTokensCount_exact_sum_witness :
    storeInSync (addMessage "default" witnessMessage 5 1 (initStore 0)) :=
  (c1_cacheTokensCount_exact_sum (ReachableSync.init 0)).1 "default" witnessMessage 5 1

/-- C2: `addConversation` prepends (the new conversation is first) and the
result never holds more than 20 conversations; 25 successive adds with ids
`c1..c25` starting from an empty list leave exactly `c25..c6`, newest first. -/
theorem c2_addConversation_cap_and_order :
    (∀ (c : DConversation) (s : ConversationsStore),
      (addConversation c s).conversations.length ≤ 20 ∧
      (addConversation c s).conversations.head? = some c) ∧
    ((List.range' 1 25).foldl (fun s i =>
        addConversation
          (createConversation i (String.append "c" (Nat.repr i)) "Conversation"
            "Generic" defaultChatModelId 0) s)
        { conversations := [], activeConversationId := none }).conversations.map
        DConversation.id =
      ((List.range' 6 20).map (fun i => String.append "c" (Nat.repr i))).reverse := by
  refine ⟨fun c s => ⟨?_, rfl⟩, by decide⟩
  simp only [addConversation, List.length_cons]
  have := s.conversations.length_take_le 19
  omega

/-- C10: every operation other than `setActiveConversationId` leaves
`activeConversationId` unchanged (zustand merges the single-key update), so
deleting the active conversation or resetting leaves a possibly dangling
active pointer; `setActiveConversationId` sets it unconditionally. -/
theorem c10_active_pointer_frame :
    (∀ c s, (addConversation c s).activeConversationId = s.activeConversationId) ∧
    (∀ cid s, (deleteConversation cid s).activeConversationId = s.activeConversationId) ∧
    (∀ t0 s, (resetConversations t0 s).activeConversationId = s.activeConversationId) ∧
    (∀ cid m now base s,
      (addMessage cid m now base s).activeConversationId = s.activeConversationId) ∧
    (∀ cid mid u now base s,
      (editMessage cid mid u now base s).activeConversationId = s.activeConversationId) ∧
    (∀ cid mid now base s,
      (removeMessage cid mid now base s).activeConversationId = s.activeConversationId) ∧
    (∀ cid ms now base s,
      (replaceMessages cid ms now base s).activeConversationId = s.activeConversationId) ∧
    (∀ cid pid now base s,
      (setSystemPurposeId cid pid now base s).activeConversationId = s.activeConversationId) ∧
    (∀ cid mid now base s,
      (setChatModelId cid mid now base s).activeConversationId = s.activeConversationId) ∧
    (∀ cid s, (setActiveConversationId cid s).activeConversationId = some cid) :=
  ⟨fun _ _ => rfl, fun _ _ => rfl, fun _ _ => rfl, fun _ _ _ _ _ => rfl,
    fun _ _ _ _ _ _ => rfl, fun _ _ _ _ _ => rfl, fun _ _ _ _ _ => rfl,
    fun _ _ _ _ _ => rfl, fun _ _ _ _ _ => rfl, fun _ _ => rfl⟩

/-- C7: `resetConversations` replaces the list with exactly the single fresh
default conversation, whose message list is empty and whose aggregate is 0
(the field is absent, and an absent count reads as 0). -/
theorem c7_resetConversations_single_default (t0 : Nat) (s : ConversationsStore) :
    (resetConversations t0 s).conversations =
      [createConversation 0 "default" "Conversation" "Generic" defaultChatModelId t0] ∧
    (resetConversations t0 s).conversations.length = 1 ∧
    ∀ c ∈ (resetConversations t0 s).conversations,
      c.messages = [] ∧ c.cacheTokensCount.getD 0 = 0 := by
  refine ⟨rfl, rfl, ?_⟩
  intro c hc
  simp [resetConversations, defaultConversations] at hc
  subst hc
  exact ⟨rfl, rfl⟩

/-- C5: whenever the active id resolves to no conversation — in particular
after deleting the conversation it points at — the resolver returns the fixed
sentinel `errorConversation`, never a null or an error. -/
theorem c5_missing_active_resolves_to_sentinel :
    (∀ (t0 : Nat) (s : ConversationsStore),
      s.conversations.find? (fun c => some c.id == s.activeConversationId) = none →
      useActiveConversation t0 s = errorConversation t0) ∧
    (∀ (t0 : Nat) (s : ConversationsStore) (cid : String),
      s.activeConversationId = some cid →
      useActiveConversation t0 (deleteConversation cid s) = errorConversation t0) := by
  constructor
  · intro t0 s h
    simp [useActiveConversation, h]
  · intro t0 s cid h
    have hfind : ((deleteConversation cid s).conversations.find?
        (fun c => some c.id == (deleteConversation cid s).activeConversationId)) = none := by
      rw [List.find?_eq_none]
      intro c hcmem
      simp only [deleteConversation] at hcmem ⊢
      have hne := (List.mem_filter.mp hcmem).2
      simp only [bne_iff_ne, ne_eq] at hne
      simp [h, hne]
    simp [useActiveConversation, hfind]

/-- Witness for C5: an empty store with a set pointer, and deleting the
active conversation of the example store, both resolve to the sentinel. -/
theorem c5_missing_active_resolves_to_sentinel_witness :
    useActiveConversation 0
        { conversations := [], activeConversationId := some "x" } =
      errorConversation 0 ∧
    useActiveConversation 0 (deleteConversation "a" exampleStore) =
      errorConversation 0 :=
  ⟨c5_missing_active_resolves_to_sentinel.1 0
      { conversations := [], activeConversationId := some "x" } rfl,
    c5_missing_active_resolves_to_sentinel.2 0 exampleStore "a" rfl⟩

/-- C3 counterexample: `addMessage` spreads every conversation, so a
conversation not matching the `conversationId` comes back as a fresh object
(different identity tag) even though its content is unchanged — the claim
that every mutation returns non-matching conversations as the same object
fails at this concrete input. -/
theorem c3_counterexample :
    (addMessage "b" witnessMessage 5 1 exampleStore).conversations ≠
      exampleStore.conversations ∧
    contentEq (addMessage "b" witnessMessage 5 1 exampleStore) exampleStore :=
  ⟨by decide, ⟨by decide, by decide⟩⟩

/-- C3 amended: `editMessage`, `removeMessage`, `replaceMessages`,
`setSystemPurposeId` and `setChatModelId` return conversations not matching
the `conversationId` as the very same object, `deleteConversation` keeps the
surviving objects and `addConversation` keeps the retained objects; only
`addMessage` reconstructs every conversation — with fresh identity even for
non-matching ones, whose content it nevertheless leaves unchanged. -/
theorem c3_amended_untouched_same_object :
    (∀ (s : ConversationsStore) (cid mid : String) (u : DMessageUpdate)
        (now base i : Nat) (c : DConversation),
      s.conversations[i]? = some c → c.id ≠ cid →
      (editMessage cid mid u now base s).conversations[i]? = some c) ∧
    (∀ (s : ConversationsStore) (cid mid : String) (now base i : Nat)
        (c : DConversation),
      s.conversations[i]? = some c → c.id ≠ cid →
      (removeMessage cid mid now base s).conversations[i]? = some c) ∧
    (∀ (s : ConversationsStore) (cid : String) (ms : List DMessage)
        (now base i : Nat) (c : DConversation),
      s.conversations[i]? = some c → c.id ≠ cid →
      (replaceMessages cid ms now base s).conversations[i]? = some c) ∧
    (∀ (s : ConversationsStore) (cid pid : String) (now base i : Nat)
        (c : DConversation),
      s.conversations[i]? = some c → c.id ≠ cid →
      (setSystemPurposeId cid pid now base s).conversations[i]? = some c) ∧
    (∀ (s : ConversationsStore) (cid mid : String) (now base i : Nat)
        (c : DConversation),
      s.conversations[i]? = some c → c.id ≠ cid →
      (setChatModelId cid mid now base s).conversations[i]? = some c) ∧
    (∀ (s : ConversationsStore) (cid : String) (c : DConversation),
      c ∈ s.conversations → c.id ≠ cid →
      c ∈ (deleteConversation cid s).conversations) ∧
    (∀ (s : ConversationsStore) (cnew c : DConversation),
      c ∈ s.conversations.take 19 → c ∈ (addConversation cnew s).conversations) ∧
    (∀ (s : ConversationsStore) (cid : String) (m : DMessage) (now base i : Nat)
        (c : DConversation),
      s.conversations[i]? = some c → c.id ≠ cid →
      (addMessage cid m now base s).conversations[i]? =
        some { c with ref := base + c.ref }) ∧
    (∀ (s : ConversationsStore) (cid : String) (m : DMessage) (now base : Nat),
      (∀ c ∈ s.conversations, c.ref < base) →
      ∀ c' ∈ (addMessage cid m now base s).conversations,
        ∀ c ∈ s.conversations, c'.ref ≠ c.ref) := by
  refine ⟨?_, ?_, ?_, ?_, ?_, ?_, ?_, ?_, ?_⟩
  · intro s cid mid u now base i c hc hne
    simp [editMessage, List.getElem?_map, hc, hne]
  · intro s cid mid now base i c hc hne
    simp [removeMessage, List.getElem?_map, hc, hne]
  · intro s cid ms now base i c hc hne
    simp [replaceMessages, List.getElem?_map, hc, hne]
  · intro s cid pid now base i c hc hne
    simp [setSystemPurposeId, List.getElem?_map, hc, hne]
  · intro s cid mid now base i c hc hne
    simp [setChatModelId, List.getElem?_map, hc, hne]
  · intro s cid c hc hne
    simp [deleteConversation, List.mem_filter, hc, hne]
  · intro s cnew c hc
    simp [addConversation]
    exact Or.inr hc
  · intro s cid m now base i c hc hne
    simp [addMessage, List.getElem?_map, hc, hne]
  · intro s cid m now base hlt c' hc' c hcmem
    simp [addMessage, List.mem_map] at hc'
    obtain ⟨a, ha, rfl⟩ := hc'
    have := hlt c hcmem
    by_cases hid : a.id = cid <;> simp [hid] <;> omega

/-- Witness for C3 amended at the example store: `editMessage` with a
non-matching id returns the untouched conversation itself, `addMessage`
returns a content-equal copy with a fresh identity tag. -/
theorem c3_amended_untouched_same_object_witness :
    (editMessage "b" "m1" {} 5 1 exampleStore).conversations[0]? =
      some exampleConversation ∧
    (addMessage "b" witnessMessage 5 1 exampleStore).conversations[0]? =
      some { exampleConversation with ref := 1 + exampleConversation.ref } :=
  ⟨c3_amended_untouched_same_object.1 exampleStore "b" "m1" {} 5 1 0
      exampleConversation rfl (by decide),
    (c3_amended_untouched_same_object.2.2.2.2.2.2.2.1 exampleStore "b" witnessMessage
      5 1 0 exampleConversation rfl (by decide))⟩

/-- Pointwise-identity maps are the identity. -/
theorem map_eq_self_of_eq {α : Type} {f : α → α} {l : List α}
    (h : ∀ a ∈ l, f a = a) : l.map f = l := by
  rw [List.map_congr_left h, List.map_id' l]

/-- C4 counterexample: `editMessage` with a resolving `conversationId` but a
non-resolving `messageId` still re-stamps the matched conversation's `updated`
field (and recomputes its aggregate), so the new snapshot is not structurally
equal in content to the previous one at this concrete input. -/
theorem c4_counterexample :
    ¬ contentEq (editMessage "a" "nope" {} 7 0 exampleStore) exampleStore :=
  fun h => absurd h.1 (by decide)

/-- C4 amended: no operation throws (all are total); when the
`conversationId` resolves to no conversation, every operation leaves the
snapshot structurally equal in content; when the `conversationId` matches but
the `messageId` does not, `editMessage` and `removeMessage` leave the message
list and all other conversations unchanged, but rebuild the matched
conversation with its aggregate recomputed as the message sum and its
`updated` stamp renewed. -/
theorem c4_amended_missing_id_noop :
    (∀ (s : ConversationsStore) (cid mid : String) (u : DMessageUpdate)
        (now base : Nat), (∀ c ∈ s.conversations, c.id ≠ cid) →
      contentEq (editMessage cid mid u now base s) s) ∧
    (∀ (s : ConversationsStore) (cid mid : String) (now base : Nat),
      (∀ c ∈ s.conversations, c.id ≠ cid) →
      contentEq (removeMessage cid mid now base s) s) ∧
    (∀ (s : ConversationsStore) (cid : String) (ms : List DMessage)
        (now base : Nat), (∀ c ∈ s.conversations, c.id ≠ cid) →
      contentEq (replaceMessages cid ms now base s) s) ∧
    (∀ (s : ConversationsStore) (cid pid : String) (now base : Nat),
      (∀ c ∈ s.conversations, c.id ≠ cid) →
      contentEq (setSystemPurposeId cid pid now base s) s) ∧
    (∀ (s : ConversationsStore) (cid mid : String) (now base : Nat),
      (∀ c ∈ s.conversations, c.id ≠ cid) →
      contentEq (setChatModelId cid mid now base s) s) ∧
    (∀ (s : ConversationsStore) (cid : String),
      (∀ c ∈ s.conversations, c.id ≠ cid) →
      contentEq (deleteConversation cid s) s) ∧
    (∀ (s : ConversationsStore) (cid : String) (m : DMessage) (now base : Nat),
      (∀ c ∈ s.conversations, c.id ≠ cid) →
      contentEq (addMessage cid m now base s) s) ∧
    (∀ (s : ConversationsStore) (cid mid : String) (u : DMessageUpdate)
        (now base : Nat),
      (∀ c ∈ s.conversations, c.id = cid → ∀ m ∈ c.messages, m.id ≠ mid) →
      (editMessage cid mid u now base s).conversations =
        s.conversations.map (fun c =>
          if c.id = cid then
            { c with ref := base + c.ref
                     cacheTokensCount := some (sumTokens c.messages)
                     updated := some now }
          else c)) ∧
    (∀ (s : ConversationsStore) (cid mid : String) (now base : Nat),
      (∀ c ∈ s.conversations, c.id = cid → ∀ m ∈ c.messages, m.id ≠ mid) →
      (removeMessage cid mid now base s).conversations =
        s.conversations.map (fun c =>
          if c.id = cid then
            { c with ref := base + c.ref
                     cacheTokensCount := some (sumTokens c.messages)
                     updated := some now }
          else c)) := by
  refine ⟨?_, ?_, ?_, ?_, ?_, ?_, ?_, ?_, ?_⟩
  · intro s cid mid u now base h
    have : (editMessage cid mid u now base s).conversations = s.conversations := by
      simp only [editMessage]
      exact map_eq_self_of_eq (fun c hc => by simp [h c hc])
    exact ⟨by rw [this], rfl⟩
  · intro s cid mid now base h
    have : (removeMessage cid mid now base s).conversations = s.conversations := by
      simp only [removeMessage]
      exact map_eq_self_of_eq (fun c hc => by simp [h c hc])
    exact ⟨by rw [this], rfl⟩
  · intro s cid ms now base h
    have : (replaceMessages cid ms now base s).conversations = s.conversations := by
      simp only [replaceMessages]
      exact map_eq_self_of_eq (fun c hc => by simp [h c hc])
    exact ⟨by rw [this], rfl⟩
  · intro s cid pid now base h
    have : (setSystemPurposeId cid pid now base s).conversations = s.conversations := by
      simp only [setSystemPurposeId]
      exact map_eq_self_of_eq (fun c hc => by simp [h c hc])
    exact ⟨by rw [this], rfl⟩
  · intro s cid mid now base h
    have : (setChatModelId cid mid now base s).conversations = s.conversations := by
      simp only [setChatModelId]
      exact map_eq_self_of_eq (fun c hc => by simp [h c hc])
    exact ⟨by rw [this], rfl⟩
  · intro s cid h
    have : (deleteConversation cid s).conversations = s.conversations := by
      simp only [deleteConversation]
      rw [List.filter_eq_self]
      intro c hc
      simp [h c hc]
    exact ⟨by rw [this], rfl⟩
  · intro s cid m now base h
    refine ⟨?_, rfl⟩
    simp only [addMessage, List.map_map]
    refine List.map_congr_left (fun c hc => ?_)
    simp [Function.comp, h c hc, eraseRef]
  · intro s cid mid u now base h
    simp only [editMessage]
    refine List.map_congr_left (fun c hc => ?_)
    by_cases hid : c.id = cid
    · have hmsgs : c.messages.map (fun m =>
          if m.id = mid then mergeMessage m u now else m) = c.messages :=
        map_eq_self_of_eq (fun m hm => by simp [h c hc hid m hm])
      simp [hid, hmsgs]
    · simp [hid]
  · intro s cid mid now base h
    simp only [removeMessage]
    refine List.map_congr_left (fun c hc => ?_)
    by_cases hid : c.id = cid
    · have hmsgs : c.messages.filter (fun m => m.id != mid) = c.messages := by
        rw [List.filter_eq_self]
        intro m hm
        simp [h c hc hid m hm]
      simp [hid, hmsgs]
    · simp [hid]

/-- Witness for C4 amended at the example store: a non-resolving
`conversationId` leaves the content untouched, and a non-resolving
`messageId` only re-stamps the matched conversation. -/
theorem c4_amended_missing_id_noop_witness :
    contentEq (editMessage "b" "m1" {} 7 3 exampleStore) exampleStore ∧
    (editMessage "a" "nope" {} 7 3 exampleStore).conversations =
      exampleStore.conversations.map (fun c =>
        if c.id = "a" then
          { c with ref := 3 + c.ref
                   cacheTokensCount := some (sumTokens c.messages)
                   updated := some 7 }
        else c) :=
  ⟨c4_amended_missing_id_noop.1 exampleStore "b" "m1" {} 7 3 (by decide),
    c4_amended_missing_id_noop.2.2.2.2.2.2.2.1 exampleStore "a" "nope" {} 7 3
      (by decide)⟩

theorem foldl_tokens (ms : List DMessage) (a : Nat) :
    ms.foldl (fun sum m => sum + msgTokens m) a = a + sumTokens ms := by
  induction ms generalizing a with
  | nil => simp [sumTokens]
  | cons m ms ih =>
    simp only [sumTokens, List.foldl_cons] at *
    rw [ih (a + msgTokens m), ih (0 + msgTokens m)]
    omega

theorem sumTokens_cons (m : DMessage) (ms : List DMessage) :
    sumTokens (m :: ms) = msgTokens m + sumTokens ms := by
  simp only [sumTokens, List.foldl_cons, Nat.zero_add]
  rw [foldl_tokens, foldl_tokens]
  omega

/-- Two per-message transforms with pointwise equal counts yield the same
sum. -/
theorem sumTokens_map_congr {f g : DMessage → DMessage} {ms : List DMessage}
    (h : ∀ m ∈ ms, msgTokens (f m) = msgTokens (g m)) :
    sumTokens (ms.map f) = sumTokens (ms.map g) := by
  induction ms with
  | nil => rfl
  | cons m ms ih =>
    simp only [List.map_cons, sumTokens_cons]
    rw [h m (List.mem_cons_self m ms), ih (fun a ha => h a (List.mem_cons_of_mem m ha))]

/-- One `editMessage` message-transform step applied twice with the same
payload: the second pass changes nothing but the `updated` stamp, and keeps
the count. -/
theorem edit_step_idem (u : DMessageUpdate) (mid : String) (n1 n2 : Nat)
    (m : DMessage) :
    eraseMsgStamp (if (if m.id = mid then mergeMessage m u n1 else m).id = mid
        then mergeMessage (if m.id = mid then mergeMessage m u n1 else m) u n2
        else (if m.id = mid then mergeMessage m u n1 else m)) =
      eraseMsgStamp (if m.id = mid then mergeMessage m u n1 else m) ∧
    msgTokens (if (if m.id = mid then mergeMessage m u n1 else m).id = mid
        then mergeMessage (if m.id = mid then mergeMessage m u n1 else m) u n2
        else (if m.id = mid then mergeMessage m u n1 else m)) =
      msgTokens (if m.id = mid then mergeMessage m u n1 else m) := by
  by_cases h1 : m.id = mid
  · rw [if_pos h1]
    simp only [mergeMessage]
    rw [h1]
    by_cases h2 : u.id.getD mid = mid
    · simp [h2, eraseMsgStamp, msgTokens, Option.getD_getD_self]
    · simp [h2]
  · simp [h1]

/-- C6: `editMessage` applied twice with the same conversation id, message id
and payload yields the same state as applying it once, up to the `updated`
stamps (and object identity) that the second application renews. -/
theorem c6_editMessage_idempotent (s : ConversationsStore) (cid mid : String)
    (u : DMessageUpdate) (now1 base1 now2 base2 : Nat) :
    stripStamps (editMessage cid mid u now2 base2
        (editMessage cid mid u now1 base1 s)) =
      stripStamps (editMessage cid mid u now1 base1 s) := by
  simp only [stripStamps, editMessage, List.map_map, ConversationsStore.mk.injEq]
  refine ⟨?_, trivial⟩
  refine List.map_congr_left (fun c hc => ?_)
  simp only [Function.comp]
  by_cases hid : c.id = cid
  · simp only [hid, eq_self_iff_true, if_true]
    simp [eraseConvStamp]
    exact ⟨fun a _ => (edit_step_idem u mid now1 now2 a).1,
      sumTokens_map_congr (fun m _ => (edit_step_idem u mid now1 now2 m).2)⟩
  · simp [hid]

/-- A per-conversation transform that keeps ids keeps the id projection of
the list. -/
theorem ids_map_eq {l : List DConversation} {f : DConversation → DConversation}
    (h : ∀ c ∈ l, (f c).id = c.id) :
    (l.map f).map DConversation.id = l.map DConversation.id := by
  rw [List.map_map]
  exact List.map_congr_left h

/-- The message operations and configuration setters keep every conversation id. -/
theorem addMessage_ids (cid : String) (m : DMessage) (now base : Nat)
    (s : ConversationsStore) :
    (addMessage cid m now base s).conversations.map DConversation.id =
      s.conversations.map DConversation.id :=
  ids_map_eq (fun c _ => by by_cases hcid : c.id = cid <;> simp [hcid])

theorem editMessage_ids (cid mid : String) (u : DMessageUpdate) (now base : Nat)
    (s : ConversationsStore) :
    (editMessage cid mid u now base s).conversations.map DConversation.id =
      s.conversations.map DConversation.id :=
  ids_map_eq (fun c _ => by by_cases hcid : c.id = cid <;> simp [hcid])

theorem removeMessage_ids (cid mid : String) (now base : Nat)
    (s : ConversationsStore) :
    (removeMessage cid mid now base s).conversations.map DConversation.id =
      s.conversations.map DConversation.id :=
  ids_map_eq (fun c _ => by by_cases hcid : c.id = cid <;> simp [hcid])

theorem replaceMessages_ids (cid : String) (ms : List DMessage) (now base : Nat)
    (s : ConversationsStore) :
    (replaceMessages cid ms now base s).conversations.map DConversation.id =
      s.conversations.map DConversation.id :=
  ids_map_eq (fun c _ => by by_cases hcid : c.id = cid <;> simp [hcid])

theorem setSystemPurposeId_ids (cid pid : String) (now base : Nat)
    (s : ConversationsStore) :
    (setSystemPurposeId cid pid now base s).conversations.map DConversation.id =
      s.conversations.map DConversation.id :=
  ids_map_eq (fun c _ => by by_cases hcid : c.id = cid <;> simp [hcid])

theorem setChatModelId_ids (cid mid : String) (now base : Nat)
    (s : ConversationsStore) :
    (setChatModelId cid mid now base s).conversations.map DConversation.id =
      s.conversations.map DConversation.id :=
  ids_map_eq (fun c _ => by by_cases hcid : c.id = cid <;> simp [hcid])

/-- C8 counterexample: `addConversation` enforces nothing about ids, so
reusing the default id from the initial state yields a reachable store whose
conversation ids are not unique. -/
theorem c8_counterexample :
    Reachable duplicateStore ∧
      ¬ (duplicateStore.conversations.map DConversation.id).Nodup :=
  ⟨Reachable.add _ (Reachable.init 0), by decide⟩

/-- C8 amended: conversation ids are unique in every reachable state provided
every `addConversation` call supplies an id not already in the list (the
operation itself enforces nothing, as the unconditional-reachability
counterexample shows). -/
theorem c8_amended_ids_unique {s : ConversationsStore} (h : ReachableFresh s) :
    (s.conversations.map DConversation.id).Nodup := by
  induction h with
  | init t0 => simp [initStore, defaultConversations]
  | add c _ hfresh ih =>
    simp only [addConversation, List.map_cons]
    refine List.nodup_cons.mpr ⟨?_, ?_⟩
    · intro hmem
      obtain ⟨a, ha, haid⟩ := List.mem_map.mp hmem
      exact hfresh (List.mem_map.mpr ⟨a, List.mem_of_mem_take ha, haid⟩)
    · rw [List.map_take]
      exact List.Nodup.sublist (List.take_sublist 19 _) ih
  | del cid _ ih =>
    exact List.Nodup.sublist
      (List.Sublist.map DConversation.id (List.filter_sublist _)) ih
  | reset t0 _ ih => simp [resetConversations, defaultConversations]
  | setActive cid _ ih => exact ih
  | addMsg cid m now base _ ih => rw [addMessage_ids]; exact ih
  | editMsg cid mid u now base _ ih => rw [editMessage_ids]; exact ih
  | removeMsg cid mid now base _ ih => rw [removeMessage_ids]; exact ih
  | replaceMsgs cid ms now base _ ih => rw [replaceMessages_ids]; exact ih
  | setPurpose cid pid now base _ ih => rw [setSystemPurposeId_ids]; exact ih
  | setModel cid mid now base _ ih => rw [setChatModelId_ids]; exact ih

/-- Witness for C8 amended: the initial state has unique ids. -/
theorem c8_amended_ids_unique_witness :
    ((initStore 0).conversations.map DConversation.id).Nodup :=
  c8_amended_ids_unique (ReachableFresh.init 0)

/-- C9: on the matched conversation, `addMessage` updates the stored
aggregate incrementally — preserving any discrepancy between the stored value
and the message sum — whereas `editMessage`, `removeMessage` and
`replaceMessages` restore the aggregate to the exact sum over the resulting
messages. -/
theorem c9_incremental_vs_recompute :
    (∀ (s : ConversationsStore) (cid : String) (m : DMessage) (now base i : Nat)
        (c : DConversation),
      s.conversations[i]? = some c → c.id = cid →
      ∃ c', (addMessage cid m now base s).conversations[i]? = some c' ∧
        c'.cacheTokensCount.getD 0 = c.cacheTokensCount.getD 0 + msgTokens m ∧
        c'.messages = c.messages ++ [m] ∧
        (c'.cacheTokensCount.getD 0 : ℤ) - (sumTokens c'.messages : ℤ) =
          (c.cacheTokensCount.getD 0 : ℤ) - (sumTokens c.messages : ℤ)) ∧
    (∀ (s : ConversationsStore) (cid mid : String) (u : DMessageUpdate)
        (now base i : Nat) (c : DConversation),
      s.conversations[i]? = some c → c.id = cid →
      ∃ c', (editMessage cid mid u now base s).conversations[i]? = some c' ∧
        c'.cacheTokensCount.getD 0 = sumTokens c'.messages) ∧
    (∀ (s : ConversationsStore) (cid mid : String) (now base i : Nat)
        (c : DConversation),
      s.conversations[i]? = some c → c.id = cid →
      ∃ c', (removeMessage cid mid now base s).conversations[i]? = some c' ∧
        c'.cacheTokensCount.getD 0 = sumTokens c'.messages) ∧
    (∀ (s : ConversationsStore) (cid : String) (ms : List DMessage)
        (now base i : Nat) (c : DConversation),
      s.conversations[i]? = some c → c.id = cid →
      ∃ c', (replaceMessages cid ms now base s).conversations[i]? = some c' ∧
        c'.cacheTokensCount.getD 0 = sumTokens c'.messages) := by
  refine ⟨?_, ?_, ?_, ?_⟩
  · intro s cid m now base i c hc hid
    refine ⟨{ c with ref := base + c.ref
                     messages := c.messages ++ [m]
                     cacheTokensCount :=
                       some (c.cacheTokensCount.getD 0 + msgTokens m)
                     updated := some now }, ?_, rfl, rfl, ?_⟩
    · simp [addMessage, List.getElem?_map, hc, hid]
    · simp only [Option.getD_some]
      rw [sumTokens_append]
      push_cast
      ring
  · intro s cid mid u now base i c hc hid
    refine ⟨{ c with ref := base + c.ref
                     messages := c.messages.map (fun m =>
                       if m.id = mid then mergeMessage m u now else m)
                     cacheTokensCount := some (sumTokens (c.messages.map (fun m =>
                       if m.id = mid then mergeMessage m u now else m)))
                     updated := some now }, ?_, rfl⟩
    simp [editMessage, List.getElem?_map, hc, hid]
  · intro s cid mid now base i c hc hid
    refine ⟨{ c with ref := base + c.ref
                     messages := c.messages.filter (fun m => m.id != mid)
                     cacheTokensCount :=
                       some (sumTokens (c.messages.filter (fun m => m.id != mid)))
                     updated := some now }, ?_, rfl⟩
    simp [removeMessage, List.getElem?_map, hc, hid]
  · intro s cid ms now base i c hc hid
    refine ⟨{ c with ref := base + c.ref
                     messages := ms
                     cacheTokensCount := some (sumTokens ms)
                     updated := some now }, ?_, rfl⟩
    simp [replaceMessages, List.getElem?_map, hc, hid]

/-- Witness for C9 at the example store: `addMessage` and `replaceMessages`
on the matched conversation behave as stated. -/
theorem c9_incremental_vs_recompute_witness :
    (∃ c', (addMessage "a" witnessMessage 5 1 exampleStore).conversations[0]? =
        some c' ∧
      c'.cacheTokensCount.getD 0 =
        exampleConversation.cacheTokensCount.getD 0 + msgTokens witnessMessage ∧
      c'.messages = exampleConversation.messages ++ [witnessMessage] ∧
      (c'.cacheTokensCount.getD 0 : ℤ) - (sumTokens c'.messages : ℤ) =
        (exampleConversation.cacheTokensCount.getD 0 : ℤ) -
          (sumTokens exampleConversation.messages : ℤ)) ∧
    (∃ c', (replaceMessages "a" [witnessMessage] 5 1 exampleStore).conversations[0]? =
        some c' ∧
      c'.cacheTokensCount.getD 0 = sumTokens c'.messages) :=
  ⟨c9_incremental_vs_recompute.1 exampleStore "a" witnessMessage 5 1 0
      exampleConversation rfl rfl,
    c9_incremental_vs_recompute.2.2.2 exampleStore "a" [witnessMessage] 5 1 0
      exampleConversation rfl rfl⟩
